import Mathlib

/-!
Verification development for the trading-bot webhook gateway (src/main.py).

The Python source is shallowly embedded: Python floats are modelled as exact
rationals (ℚ), Python ints as ℤ, HTTP status codes as ℕ, dictionaries keyed by
strings as association lists or total functions, and fallible JSON fields as
Option values.  Environment-derived configuration is a `Config` record whose
default field values are the source's default env values; request-time ambient
state (wall clock, cached balance, open-position counts, the trading-window
test, downstream call outcomes) is an `Env` record.  The webhook handler
`webhook` mirrors the control flow of the `/webhook` route line by line and
additionally returns an `Effects` record describing its side effects
(trade-log appends, equity simulation, downstream invocations, the idempotency
store after the call).
-/

namespace TradingBot

/-- ASCII uppercase, modelling Python `str.upper` on the ASCII tokens this
program handles. -/
def upperStr (s : String) : String := ⟨s.data.map Char.toUpper⟩

/-- ASCII lowercase, modelling Python `str.lower`. -/
def lowerStr (s : String) : String := ⟨s.data.map Char.toLower⟩

/-- Whether the first character list starts with the second. -/
def charsStartWith : List Char → List Char → Bool
  | _, [] => true
  | [], _ :: _ => false
  | c :: cs, d :: ds => c = d && charsStartWith cs ds

/-- Whether the second character list occurs inside the first. -/
def charsContain : List Char → List Char → Bool
  | [], pat => pat.isEmpty
  | c :: cs, pat => charsStartWith (c :: cs) pat || charsContain cs pat

/-- Python `pat in s` substring test. -/
def strContains (s pat : String) : Bool := charsContain s.data pat.data

/-- First-match lookup in an association list keyed by strings (Python dict
lookup; the dicts in the source have no duplicate keys). -/
def lookupKV {α : Type} : List (String × α) → String → Option α
  | [], _ => none
  | (k, v) :: rest, key => if k = key then some v else lookupKV rest key

/-- One entry of the source's `SYMBOL_META` table. -/
structure SymbolMeta where
  aliases : List String
  kind : String
  pip : Option ℚ := none
  point : Option ℚ := none

/-- The source's `SYMBOL_META` reference table (TradingView to OANDA). -/
def SYMBOL_META : List (String × SymbolMeta) :=
  [("EUR_USD", { aliases := ["EURUSD", "FX:EURUSD", "OANDA:EURUSD"],
                 kind := "fx", pip := some (1/10000) }),
   ("GBP_USD", { aliases := ["GBPUSD", "FX:GBPUSD", "OANDA:GBPUSD"],
                 kind := "fx", pip := some (1/10000) }),
   ("USD_JPY", { aliases := ["USDJPY", "FX:USDJPY", "OANDA:USDJPY"],
                 kind := "fx", pip := some (1/100) }),
   ("XAU_USD", { aliases := ["XAUUSD", "GOLD", "OANDA:XAUUSD", "FOREXCOM:XAUUSD"],
                 kind := "metal", point := some (1/10) }),
   ("US30_USD", { aliases := ["US30", "US30USD", "OANDA:US30USD", "DJI", "US30CASH"],
                  kind := "index", point := some 1 }),
   ("NAS100_USD", { aliases := ["NAS100", "US100", "NAS100USD", "OANDA:NAS100USD"],
                    kind := "index", point := some 1 })]

/-- Uppercase and strip `:` and `.` (the normalisation applied to alias keys
and to incoming ticker strings). -/
def normToken (s : String) : String :=
  ⟨(upperStr s).data.filter (fun c => !(c == ':') && !(c == '.'))⟩

/-- The source's `ALIAS_TO_OANDA` table: every canonical id maps to itself
and every normalised alias maps to its canonical id. -/
def ALIAS_TO_OANDA : List (String × String) :=
  SYMBOL_META.foldl
    (fun acc p => acc ++ (p.1, p.1) :: p.2.aliases.map (fun a => (normToken a, p.1)))
    []

/-- Model of `map_symbol`: normalise an incoming ticker and resolve it through the
alias table; unknown tokens pass through unchanged. -/
def map_symbol (tv_symbol : String) : String :=
  let raw := normToken tv_symbol
  (lookupKV ALIAS_TO_OANDA raw).getD raw

/-- Model of `to_price_delta`: convert a quantity in pips / points / absolute price
into a price delta for an instrument.  `none` quantity (Python `None`) gives
0; `price` is the identity; `pips` multiplies by the pip size (default
1/10000); `points` (or anything else) multiplies by the point size for
index/metal instruments and falls back to the pip size otherwise. -/
def to_price_delta (oanda_sym : String) (qty : Option ℚ) (unit_type : String) : ℚ :=
  let ut := lowerStr unit_type
  match qty with
  | none => 0
  | some q =>
    if ut = "price" then q
    else
      let meta := lookupKV SYMBOL_META oanda_sym
      if ut = "pips" then q * ((meta.bind SymbolMeta.pip).getD (1/10000))
      else if meta.map SymbolMeta.kind = some "index" ∨ meta.map SymbolMeta.kind = some "metal" then
        q * ((meta.bind SymbolMeta.point).getD 1)
      else q * ((meta.bind SymbolMeta.pip).getD (1/10000))

/-- Environment-derived configuration; defaults are the source's env-var
defaults. -/
structure Config where
  LOCAL_TEST : Bool := true
  TRADING_ENABLED : Bool := true
  FORWARD_TO_OANDA : Bool := true
  FORWARD_TO_DUP : Bool := true
  DUP_BASE : String := ""
  MAX_RISK_PCT : ℚ := 1/2
  MAX_UNITS : ℤ := 300000
  DAILY_LOSS_STOP_PCT : ℚ := 3/2
  SYMBOL_RISK_CAPS : String → Option ℚ := fun _ => none
  SYMBOL_ALLOW : List String := ["US30", "NAS100", "XAUUSD", "EURUSD"]
  MAX_CONCURRENT_GLOBAL : ℤ := 3
  MAX_CONCURRENT_PER_SYMBOL : ℤ := 2
  MIN_SL_RULES : String → Option (ℚ × String) := fun _ => none

/-- The all-defaults configuration (fresh environment, `LOCAL_TEST` on). -/
def defaultConfig : Config := {}

/-- The default configuration with both concurrency caps set to 0. -/
def zeroCapsConfig : Config :=
  { MAX_CONCURRENT_GLOBAL := 0, MAX_CONCURRENT_PER_SYMBOL := 0 }

/-- Model of `clamp_units`: clamp a unit count to `[1, MAX_UNITS]`. -/
def clamp_units (cfg : Config) (units : ℤ) : ℤ :=
  max 1 (min units cfg.MAX_UNITS)

/-- Model of `clamp_risk`: cap the requested risk percentage by the global cap and the
per-symbol risk cap when configured, floored at zero. -/
def clamp_risk (cfg : Config) (tv_symbol : String) (requested_pct : ℚ) : ℚ :=
  let pct := min requested_pct cfg.MAX_RISK_PCT
  let pct2 := match cfg.SYMBOL_RISK_CAPS (upperStr tv_symbol) with
    | some cap => min pct cap
    | none => pct
  max 0 pct2

/-- Model of `size_for_risk`: units ≈ risk dollars / price distance to the stop, with
degenerate stops (absent, zero — Python falsy — or equal to entry) giving the
minimum clamped size. -/
def size_for_risk (cfg : Config) (tv_symbol : String) (balance risk_pct entry : ℚ)
    (sl_price : Option ℚ) : ℤ × ℚ :=
  let applied_pct := clamp_risk cfg tv_symbol risk_pct
  match sl_price with
  | none => (clamp_units cfg 1, applied_pct)
  | some sl =>
    if sl = 0 ∨ sl = entry then (clamp_units cfg 1, applied_pct)
    else
      let price_delta := |entry - sl|
      if price_delta ≤ 0 then (clamp_units cfg 1, applied_pct)
      else
        let risk_dollars := balance * (applied_pct / 100)
        (clamp_units cfg ⌊risk_dollars / price_delta⌋, applied_pct)

/-- Model of `day_loss_pct`: drawdown percentage from start-of-day equity to latest
equity, guarded against a non-positive baseline and floored at zero. -/
def day_loss_pct (sod cur : ℚ) : ℚ :=
  if sod ≤ 0 then 0 else max 0 ((sod - cur) / sod * 100)

/-- The idempotency TTL in seconds (`ID_TTL`). -/
def ID_TTL : ℚ := 90

/-- The `LAST_SEEN` map: order id paired with its first-seen timestamp. -/
abbrev Store := List (String × ℚ)

/-- Drop every entry older than the TTL (the purge loop at the top of
`seen`). -/
def purgeStore (store : Store) (now : ℚ) : Store :=
  store.filter (fun e => decide (now - e.2 ≤ ID_TTL))

/-- Model of `seen`: purge stale entries, treat an empty id as never seen, report a
present id as a duplicate without touching its timestamp, and record an
absent id. Returns the flag together with the updated map. -/
def seen (store : Store) (order_id : String) (now : ℚ) : Bool × Store :=
  let st := purgeStore store now
  if order_id = "" then (false, st)
  else
    match lookupKV st order_id with
    | some _ => (true, st)
    | none => (false, (order_id, now) :: st)

/-- Request-time ambient state: wall clock, the generated fallback order id,
the trading-window test outcome (the source's `in_trading_window()` reads the
wall clock and a window spec; it is abstracted as a boolean of the ambient
state), the equity-file readings, the position-census counts, the balance
oracle reading, and the outcomes of the two live downstream calls. -/
structure Env where
  now : ℚ := 0
  genId : String := "tv-00000000"
  inWindow : Bool := true
  sodEquity : ℚ := 10000
  latestEquity : ℚ := 10000
  gCount : ℤ := 0
  perCounts : String → ℤ := fun _ => 0
  balance : ℚ := 1000000
  oandaOk : Bool := true
  dupOk : Bool := true
  dupStatus : ℤ := 200
  dupMsg : String := ""

/-- Model of `place_oanda_order`: a no-op success under `LOCAL_TEST`, disabled
forwarding or the kill switch; otherwise the live outcome from the broker. -/
def place_oanda_order (cfg : Config) (env : Env) : Bool × String :=
  if cfg.LOCAL_TEST || !cfg.FORWARD_TO_OANDA || !cfg.TRADING_ENABLED then
    (true, "OANDA not called (LOCAL_TEST / forwarding disabled / trading disabled)")
  else if env.oandaOk then (true, "OANDA order placed")
  else (false, "OANDA order failed")

/-- Model of `forward_to_duplikium`: a no-op success under `LOCAL_TEST`, disabled
forwarding or the kill switch; a 400 failure when no base URL is configured;
otherwise the live outcome from the relay. -/
def forward_to_duplikium (cfg : Config) (env : Env) : Bool × ℤ × String :=
  if cfg.LOCAL_TEST || !cfg.FORWARD_TO_DUP || !cfg.TRADING_ENABLED then
    (true, 200, "Duplikium not called (LOCAL_TEST / forwarding disabled / trading disabled)")
  else if cfg.DUP_BASE = "" then (false, 400, "DUPLIKIUM_BASE not set")
  else (env.dupOk, env.dupStatus, env.dupMsg)

/-- The JSON body of a webhook request; absent keys are `none`. -/
structure WebhookData where
  action : Option String := none
  signal : Option String := none
  symbol : Option String := none
  price : Option ℚ := none
  order_id : Option String := none
  sl : Option ℚ := none
  sl_type : Option String := none
  tp : Option ℚ := none
  tp_type : Option String := none
  risk_pct : Option ℚ := none

/-- Aggregate execution status; `mixed` models the source's `'partial'`
string (exactly one downstream call succeeded). -/
inductive ExecStatus where
  | ok
  | mixed
  | error
deriving DecidableEq

inductive Side where
  | buy
  | sell
deriving DecidableEq

def side_str : Side → String
  | .buy => "BUY"
  | .sell => "SELL"

/-- The semantically distinct responses of the `/webhook` route. -/
inductive WebhookResult where
  | noData
  | missingSideSymbol
  | symbolNotAllowed
  | internalError
  | duplicate
  | skippedTradingDisabled
  | outsideWindow
  | dailyLossStop
  | maxConcurrentGlobal
  | maxConcurrentPerSymbol
  | minSLTooSmall
  | executed (status : ExecStatus) (sent_units : ℤ) (slPrice tpPrice : Option ℚ)
      (risk_pct_applied : ℚ) (oanda_msg : String) (dup_status : ℤ) (dup_msg : String)
deriving DecidableEq

/-- The side effects of one webhook call: trade-log appends
(`save_trade_to_csv` rows), whether `simulate_equity` ran, whether each
downstream call was invoked, and the idempotency store afterwards. -/
structure Effects where
  tradeLog : List (String × String × ℚ × String) := []
  equitySim : Bool := false
  oandaCalled : Bool := false
  dupCalled : Bool := false
  store : Store := []
deriving DecidableEq

def noEffects (store : Store) : Effects := { store := store }

/-- Python `(a or b or "")` over two optional strings (empty is falsy). -/
def pyFirstStr (a b : Option String) : String :=
  if a.getD "" = "" then b.getD "" else a.getD ""

/-- Side resolution: `"BUY" if "BUY" in action else "SELL" if "SELL" in action else None`. -/
def sideOf (action : String) : Option Side :=
  if strContains action "BUY" then some Side.buy
  else if strContains action "SELL" then some Side.sell
  else none

/-- Python `(x or dflt)` for an optional string field. -/
def pyStrDefault (o : Option String) (dflt : String) : String :=
  if o.getD "" = "" then dflt else o.getD ""

/-- Order-id resolution, Python `data.get` with a generated fallback:
the client id when truthy,
else the generated one. -/
def oidOf (d : WebhookData) (env : Env) : String :=
  if d.order_id.getD "" = "" then env.genId else d.order_id.getD ""

/-- The minimum-stop-distance guard condition: a rule is configured for the
symbol, the signal supplies a stop, and the supplied stop distance converts
to a smaller price delta than the rule's. -/
def minSLViolated (cfg : Config) (tv_symbol instrument sl_type : String)
    (sl : Option ℚ) : Bool :=
  match cfg.MIN_SL_RULES tv_symbol, sl with
  | some rule, some sl_q =>
      decide (to_price_delta instrument (some sl_q) sl_type
                < to_price_delta instrument (some rule.1) rule.2)
  | _, _ => false

/-- The aggregate status reduction over the two downstream outcomes:
`ok` when both succeed, `'partial'` (here `mixed`) when exactly one does,
`error` when both fail. -/
def aggStatus (o du : Bool) : ExecStatus :=
  if o && du then .ok else if o || du then .mixed else .error

/-- The tail of the `/webhook` route after all guards have passed: enforce
the minimum stop distance, convert the stop/target distances into prices,
size the order, append the trade log row, run `simulate_equity`, invoke both
downstream calls and aggregate their outcomes. -/
def execStage (cfg : Config) (env : Env) (tv_symbol instrument : String) (side : Side)
    (price : ℚ) (oid : String) (st1 : Store) (d : WebhookData) :
    ℕ × WebhookResult × Effects :=
  let sl_type := pyStrDefault d.sl_type "points"
  let tp_type := pyStrDefault d.tp_type "points"
  if minSLViolated cfg tv_symbol instrument sl_type d.sl then
    (400, .minSLTooSmall, noEffects st1)
  else
    let sl_p := d.sl.map (fun q =>
      match side with
      | .buy => price - to_price_delta instrument (some q) sl_type
      | .sell => price + to_price_delta instrument (some q) sl_type)
    let tp_p := d.tp.map (fun q =>
      match side with
      | .buy => price + to_price_delta instrument (some q) tp_type
      | .sell => price - to_price_delta instrument (some q) tp_type)
    let sized := size_for_risk cfg tv_symbol env.balance
      (d.risk_pct.getD (1/20)) price sl_p
    let oanda := place_oanda_order cfg env
    let dup := forward_to_duplikium cfg env
    let status := aggStatus oanda.1 dup.1
    (if status = ExecStatus.error then 500 else 200,
     .executed status sized.1 sl_p tp_p sized.2 oanda.2 dup.2.1 dup.2.2,
     { tradeLog := [(tv_symbol, side_str side, price, oid)],
       equitySim := true, oandaCalled := true, dupCalled := true,
       store := st1 })

/-- The hard-guard chain of the `/webhook` route (kill switch, trading
window, daily loss stop, concurrency caps), falling through to
`execStage`.  The kill-switch rejection appends the trade-log row; the
other rejections do not. -/
def guardStage (cfg : Config) (env : Env) (tv_symbol : String) (side : Side)
    (price : ℚ) (oid : String) (st1 : Store) (d : WebhookData) :
    ℕ × WebhookResult × Effects :=
  if !cfg.TRADING_ENABLED then
    (200, .skippedTradingDisabled,
     { tradeLog := [(tv_symbol, side_str side, price, oid)], store := st1 })
  else if !env.inWindow then (403, .outsideWindow, noEffects st1)
  else if 0 < cfg.DAILY_LOSS_STOP_PCT ∧
      cfg.DAILY_LOSS_STOP_PCT ≤ day_loss_pct env.sodEquity env.latestEquity then
    (403, .dailyLossStop, noEffects st1)
  else
    let instrument := map_symbol tv_symbol
    if cfg.MAX_CONCURRENT_GLOBAL ≠ 0 ∧
        cfg.MAX_CONCURRENT_GLOBAL ≤ env.gCount then
      (403, .maxConcurrentGlobal, noEffects st1)
    else if cfg.MAX_CONCURRENT_PER_SYMBOL ≠ 0 ∧
        cfg.MAX_CONCURRENT_PER_SYMBOL ≤ env.perCounts instrument then
      (403, .maxConcurrentPerSymbol, noEffects st1)
    else execStage cfg env tv_symbol instrument side price oid st1 d

/-- The `/webhook` route: parse and validate the body, resolve the side and
symbol, check the allow-list, read the price, dedup via `seen`, then run the
guard chain and execution.  Returns the HTTP status, the structured response
and the side effects. -/
def webhook (cfg : Config) (env : Env) (store : Store) (data : Option WebhookData) :
    ℕ × WebhookResult × Effects :=
  match data with
  | none => (400, .noData, noEffects store)
  | some d =>
    match sideOf (upperStr (pyFirstStr d.action d.signal)) with
    | none => (400, .missingSideSymbol, noEffects store)
    | some side =>
      let tv_symbol := upperStr (d.symbol.getD "")
      if tv_symbol = "" then (400, .missingSideSymbol, noEffects store)
      else if tv_symbol ∉ cfg.SYMBOL_ALLOW then (400, .symbolNotAllowed, noEffects store)
      else
        match d.price with
        | none => (500, .internalError, noEffects store)
        | some price =>
          let sres := seen store (oidOf d env) env.now
          if sres.1 then (200, .duplicate, noEffects sres.2)
          else guardStage cfg env tv_symbol side price (oidOf d env) sres.2 d

def scenarioAEnv : Env :=
  { now := 1000, genId := "tv-00000000", inWindow := true,
    sodEquity := 10000, latestEquity := 10000, gCount := 0,
    perCounts := fun _ => 0, balance := 1000000,
    oandaOk := true, dupOk := true, dupStatus := 200, dupMsg := "" }

def scenarioAData : WebhookData :=
  { action := some "BUY", symbol := some "US30", price := some 39250,
    order_id := some "sigA-1", sl := some 150, tp := some 300,
    risk_pct := some (1/20) }

theorem lowerStr_points : lowerStr "points" = "points" := by decide

theorem upperStr_US30 : upperStr "US30" = "US30" := by decide

theorem sideOf_upper_BUY : sideOf (upperStr "BUY") = some Side.buy := by decide

theorem map_symbol_US30 : map_symbol "US30" = "US30_USD" := by decide

theorem tpd_US30_points (q : ℚ) :
    to_price_delta "US30_USD" (some q) "points" = q := by
  simp [to_price_delta, SYMBOL_META, lookupKV, lowerStr_points]

/-- Claim C1: in dry-run mode (`LOCAL_TEST` on) with the default configuration
(US30 allow-listed) and a balance of 1,000,000, the signal
`{symbol: US30, side: BUY, price: 39250, sl: 150 points, tp: 300 points,
risk_pct: 0.05}` is sized to `units = floor(1000000*0.0005/150) = 3` with
`slPrice = 39100` and `tpPrice = 39550`, and the aggregate outcome is `ok`
with both downstream calls reported as no-ops. -/
theorem claim1_scenarioA :
    webhook defaultConfig scenarioAEnv [] (some scenarioAData) =
      (200,
       .executed ExecStatus.ok 3 (some 39100) (some 39550) (1/20)
         "OANDA not called (LOCAL_TEST / forwarding disabled / trading disabled)"
         200
         "Duplikium not called (LOCAL_TEST / forwarding disabled / trading disabled)",
       { tradeLog := [("US30", "BUY", 39250, "sigA-1")],
         equitySim := true, oandaCalled := true, dupCalled := true,
         store := [("sigA-1", 1000)] }) := by
  simp only [webhook, scenarioAEnv, scenarioAData, defaultConfig]
  norm_num +decide [guardStage, execStage, aggStatus, pyFirstStr, oidOf, seen,
    purgeStore, lookupKV, pyStrDefault,
    minSLViolated, day_loss_pct, map_symbol_US30, tpd_US30_points,
    size_for_risk, clamp_risk, clamp_units,
    place_oanda_order, forward_to_duplikium, noEffects, side_str,
    sideOf_upper_BUY, upperStr_US30]

/-- Case analysis: `execStage` either rejects on the minimum stop distance or executes:
its two downstream messages and aggregate status come from
`place_oanda_order` and `forward_to_duplikium`, and its effects append
exactly one trade-log row, run the equity simulation and invoke both
downstream calls. -/
theorem execStage_cases (cfg : Config) (env : Env) (tv inst : String) (side : Side)
    (price : ℚ) (oid : String) (st1 : Store) (d : WebhookData) :
    execStage cfg env tv inst side price oid st1 d = (400, .minSLTooSmall, noEffects st1) ∨
    ∃ u sp tp ra,
      execStage cfg env tv inst side price oid st1 d =
        (if aggStatus (place_oanda_order cfg env).1 (forward_to_duplikium cfg env).1 =
            ExecStatus.error then 500 else 200,
         .executed (aggStatus (place_oanda_order cfg env).1 (forward_to_duplikium cfg env).1)
           u sp tp ra (place_oanda_order cfg env).2 (forward_to_duplikium cfg env).2.1
           (forward_to_duplikium cfg env).2.2,
         { tradeLog := [(tv, side_str side, price, oid)], equitySim := true,
           oandaCalled := true, dupCalled := true, store := st1 }) := by
  simp only [execStage]
  split
  · exact Or.inl rfl
  · exact Or.inr ⟨_, _, _, _, rfl⟩

/-- Case analysis: `guardStage` either vetoes (each veto with its guard condition) or
falls through to `execStage` on the resolved instrument. -/
theorem guardStage_cases (cfg : Config) (env : Env) (tv : String) (side : Side)
    (price : ℚ) (oid : String) (st1 : Store) (d : WebhookData) :
    (cfg.TRADING_ENABLED = false ∧
       guardStage cfg env tv side price oid st1 d =
         (200, .skippedTradingDisabled,
          { tradeLog := [(tv, side_str side, price, oid)], store := st1 })) ∨
    (env.inWindow = false ∧
       guardStage cfg env tv side price oid st1 d = (403, .outsideWindow, noEffects st1)) ∨
    (0 < cfg.DAILY_LOSS_STOP_PCT ∧
       cfg.DAILY_LOSS_STOP_PCT ≤ day_loss_pct env.sodEquity env.latestEquity ∧
       guardStage cfg env tv side price oid st1 d = (403, .dailyLossStop, noEffects st1)) ∨
    (cfg.MAX_CONCURRENT_GLOBAL ≠ 0 ∧ cfg.MAX_CONCURRENT_GLOBAL ≤ env.gCount ∧
       guardStage cfg env tv side price oid st1 d = (403, .maxConcurrentGlobal, noEffects st1)) ∨
    (cfg.MAX_CONCURRENT_PER_SYMBOL ≠ 0 ∧
       cfg.MAX_CONCURRENT_PER_SYMBOL ≤ env.perCounts (map_symbol tv) ∧
       guardStage cfg env tv side price oid st1 d =
         (403, .maxConcurrentPerSymbol, noEffects st1)) ∨
    (guardStage cfg env tv side price oid st1 d =
       execStage cfg env tv (map_symbol tv) side price oid st1 d) := by
  simp only [guardStage]
  split_ifs with h1 h2 h3 h4 h5
  · exact Or.inl ⟨by simpa using h1, rfl⟩
  · exact Or.inr (Or.inl ⟨by simpa using h2, rfl⟩)
  · exact Or.inr (Or.inr (Or.inl ⟨h3.1, h3.2, rfl⟩))
  · exact Or.inr (Or.inr (Or.inr (Or.inl ⟨h4.1, h4.2, rfl⟩)))
  · exact Or.inr (Or.inr (Or.inr (Or.inr (Or.inl ⟨h5.1, h5.2, rfl⟩))))
  · exact Or.inr (Or.inr (Or.inr (Or.inr (Or.inr rfl))))

/-- Case analysis: `webhook` either rejects during parsing/validation, answers a duplicate,
or hands over to `guardStage` with the purged-and-updated store. -/
theorem webhook_cases (cfg : Config) (env : Env) (store : Store)
    (data : Option WebhookData) :
    webhook cfg env store data = (400, .noData, noEffects store) ∨
    webhook cfg env store data = (400, .missingSideSymbol, noEffects store) ∨
    webhook cfg env store data = (400, .symbolNotAllowed, noEffects store) ∨
    webhook cfg env store data = (500, .internalError, noEffects store) ∨
    (∃ d : WebhookData, data = some d ∧
       webhook cfg env store data =
         (200, .duplicate, noEffects (seen store (oidOf d env) env.now).2)) ∨
    (∃ (d : WebhookData) (side : Side) (price : ℚ), data = some d ∧
       webhook cfg env store data =
         guardStage cfg env (upperStr (d.symbol.getD "")) side price (oidOf d env)
           (seen store (oidOf d env) env.now).2 d) := by
  cases data with
  | none => exact Or.inl rfl
  | some d =>
    simp only [webhook]
    rcases hs : sideOf (upperStr (pyFirstStr d.action d.signal)) with _ | side
    · exact Or.inr (Or.inl rfl)
    · dsimp only
      by_cases h1 : upperStr (d.symbol.getD "") = ""
      · rw [if_pos h1]
        exact Or.inr (Or.inl rfl)
      · rw [if_neg h1]
        by_cases h2 : upperStr (d.symbol.getD "") ∈ cfg.SYMBOL_ALLOW
        · rw [if_neg (not_not_intro h2)]
          rcases hp : d.price with _ | price
          · exact Or.inr (Or.inr (Or.inr (Or.inl rfl)))
          · dsimp only
            by_cases h3 : (seen store (oidOf d env) env.now).1 = true
            · rw [if_pos h3]
              exact Or.inr (Or.inr (Or.inr (Or.inr (Or.inl ⟨d, rfl, rfl⟩))))
            · rw [if_neg h3]
              exact Or.inr (Or.inr (Or.inr (Or.inr (Or.inr ⟨d, side, price, rfl, rfl⟩))))
        · rw [if_pos h2]
          exact Or.inr (Or.inr (Or.inl rfl))

/-- Claim C8: `to_price_delta` is linear in the quantity, and unit kind `price`
is the identity on the quantity. -/
theorem claim8_to_price_delta_linear (s : String) (u : String) (q : ℚ) :
    to_price_delta s (some (2 * q)) u = 2 * to_price_delta s (some q) u ∧
    to_price_delta s (some q) "price" = q := by
  constructor
  · simp only [to_price_delta]
    split_ifs <;> ring
  · simp [to_price_delta, show lowerStr "price" = "price" from by decide]

/-- An id that pairs with no timestamp in an association list is not found. -/
theorem lookupKV_eq_none {α : Type} {l : List (String × α)} {k : String}
    (h : ∀ v, (k, v) ∉ l) : lookupKV l k = none := by
  induction l with
  | nil => rfl
  | cons p rest ih =>
    obtain ⟨k2, v2⟩ := p
    have hne : ¬ k2 = k := by
      intro he
      exact h v2 (by simp [he])
    simp only [lookupKV, if_neg hne]
    exact ih (fun v hv => h v (List.mem_cons_of_mem _ hv))

/-- Membership in the purged store implies membership in the original store
and freshness within the TTL. -/
theorem mem_purgeStore {store : Store} {now : ℚ} {e : String × ℚ}
    (h : e ∈ purgeStore store now) : e ∈ store ∧ now - e.2 ≤ ID_TTL := by
  unfold purgeStore at h
  have h2 := List.mem_filter.mp h
  exact ⟨h2.1, by simpa using h2.2⟩

/-- Claim C4: for a non-empty, fresh order id: the first call to `seen` returns
false and records the id with its first-seen time; a second call within the
TTL returns true, purges, and leaves the recorded timestamp unchanged; a
call after the TTL has elapsed returns false again; every call purges all
entries older than the TTL; and an empty order id always returns false and
is never inserted. -/
theorem claim4_idempotency (store : Store) (oid : String) (t1 t2 t3 : ℚ)
    (hid : oid ≠ "") (hfresh : ∀ v, (oid, v) ∉ store)
    (hin : t2 - t1 ≤ ID_TTL) (hout : ID_TTL < t3 - t1) :
    (seen store oid t1).1 = false ∧
    lookupKV (seen store oid t1).2 oid = some t1 ∧
    (seen (seen store oid t1).2 oid t2).1 = true ∧
    (seen (seen store oid t1).2 oid t2).2 = purgeStore (seen store oid t1).2 t2 ∧
    lookupKV (seen (seen store oid t1).2 oid t2).2 oid = some t1 ∧
    (seen (seen (seen store oid t1).2 oid t2).2 oid t3).1 = false ∧
    (∀ (s : Store) (i : String) (t : ℚ), ∀ e ∈ (seen s i t).2, t - e.2 ≤ ID_TTL) ∧
    (∀ (s : Store) (t : ℚ), (seen s "" t).1 = false ∧ (seen s "" t).2 = purgeStore s t) := by
  have hfresh1 : ∀ v, (oid, v) ∉ purgeStore store t1 :=
    fun v hv => hfresh v (mem_purgeStore hv).1
  have h1 : seen store oid t1 = (false, (oid, t1) :: purgeStore store t1) := by
    simp only [seen, if_neg hid, lookupKV_eq_none hfresh1]
  have hpurge2 : purgeStore ((oid, t1) :: purgeStore store t1) t2 =
      (oid, t1) :: purgeStore (purgeStore store t1) t2 := by
    simp only [purgeStore, List.filter_cons]
    rw [if_pos (decide_eq_true hin)]
  have h2 : seen ((oid, t1) :: purgeStore store t1) oid t2 =
      (true, (oid, t1) :: purgeStore (purgeStore store t1) t2) := by
    simp only [seen, hpurge2, if_neg hid]
    simp [lookupKV]
  have hpurge3 : purgeStore ((oid, t1) :: purgeStore (purgeStore store t1) t2) t3 =
      purgeStore (purgeStore (purgeStore store t1) t2) t3 := by
    simp only [purgeStore, List.filter_cons]
    rw [if_neg]
    simp only [decide_eq_true_eq]
    exact fun hc => absurd hc (not_le.mpr hout)
  have hfresh3 : ∀ v, (oid, v) ∉ purgeStore (purgeStore (purgeStore store t1) t2) t3 :=
    fun v hv => hfresh1 v (mem_purgeStore (mem_purgeStore hv).1).1
  have h3 : (seen ((oid, t1) :: purgeStore (purgeStore store t1) t2) oid t3).1 = false := by
    simp only [seen, hpurge3, if_neg hid, lookupKV_eq_none hfresh3]
  refine ⟨by rw [h1], by rw [h1]; simp [lookupKV], by rw [h1, h2],
    by rw [h1, h2, hpurge2], by rw [h1, h2]; simp [lookupKV], by rw [h1, h2]; exact h3,
    ?_, ?_⟩
  · intro s i t e he
    simp only [seen] at he
    by_cases hi : i = ""
    · rw [if_pos hi] at he
      exact (mem_purgeStore he).2
    · rw [if_neg hi] at he
      rcases hl : lookupKV (purgeStore s t) i with _ | v <;> rw [hl] at he
      · rcases List.mem_cons.mp he with he1 | he2
        · subst he1
          norm_num [ID_TTL]
        · exact (mem_purgeStore he2).2
      · exact (mem_purgeStore he).2
  · intro s t
    constructor <;> simp [seen]

/-- Claim C4 witness: a fresh id `"A"` at time 0 is new, a repeat at time 10 is a
duplicate, and a repeat at time 100 (past the 90-second TTL) is new again. -/
theorem claim4_idempotency_witness :
    (seen [] "A" 0).1 = false ∧
    (seen (seen [] "A" 0).2 "A" 10).1 = true ∧
    (seen (seen (seen [] "A" 0).2 "A" 10).2 "A" 100).1 = false := by
  have h := claim4_idempotency [] "A" 0 10 100 (by decide) (by simp)
    (by norm_num [ID_TTL]) (by norm_num [ID_TTL])
  exact ⟨h.1, h.2.2.1, h.2.2.2.2.2.1⟩

theorem clamp_units_mono (cfg : Config) {a b : ℤ} (h : a ≤ b) :
    clamp_units cfg a ≤ clamp_units cfg b := by
  unfold clamp_units
  exact max_le_max le_rfl (min_le_min h le_rfl)

theorem clamp_units_le (cfg : Config) (hM : 1 ≤ cfg.MAX_UNITS) (u : ℤ) :
    clamp_units cfg u ≤ cfg.MAX_UNITS := by
  unfold clamp_units
  exact max_le hM (min_le_right _ _)

theorem clamp_units_of_lt_one (cfg : Config) {u : ℤ} (h : u < 1) :
    clamp_units cfg u = 1 := by
  unfold clamp_units
  exact max_eq_left (le_trans (min_le_left _ _) (le_of_lt h))

theorem clamp_risk_nonneg (cfg : Config) (s : String) (r : ℚ) :
    0 ≤ clamp_risk cfg s r := by
  unfold clamp_risk
  exact le_max_left _ _

/-- On a truthy stop at positive distance from entry, `size_for_risk`
computes the clamped floored risk quotient. -/
theorem size_for_risk_valid (cfg : Config) (sym : String) (bal r entry sl : ℚ)
    (h0 : sl ≠ 0) (he : sl ≠ entry) :
    size_for_risk cfg sym bal r entry (some sl) =
      (clamp_units cfg ⌊bal * (clamp_risk cfg sym r / 100) / |entry - sl|⌋,
       clamp_risk cfg sym r) := by
  have hd : 0 < |entry - sl| := abs_pos.mpr (sub_ne_zero.mpr (Ne.symm he))
  simp only [size_for_risk]
  rw [if_neg (by push_neg; exact ⟨h0, he⟩), if_neg (not_le.mpr hd)]

/-- Claim C3 counterexample: the unit count is not non-increasing in the stop
distance |entry - stop| over all inputs: a stop equal to the entry
(distance 0) yields the degenerate minimum size 1, while a stop 150 points
away yields 3 units, so a larger distance produced a larger size. -/
theorem claim3_counterexample :
    |(39250 : ℚ) - 39250| ≤ |(39250 : ℚ) - 39100| ∧
    (size_for_risk defaultConfig "US30" 1000000 (1/20) 39250 (some 39250)).1 <
      (size_for_risk defaultConfig "US30" 1000000 (1/20) 39250 (some 39100)).1 := by
  constructor
  · rw [sub_self, abs_zero]
    exact abs_nonneg _
  · norm_num [size_for_risk, clamp_risk, clamp_units, defaultConfig, abs_of_nonneg]

/-- Claim C3 (amended): holding the other inputs fixed, the unit count is
monotonically non-decreasing in balance, and non-increasing in stop distance
among truthy stops at positive distance from entry (the degenerate stops —
absent, zero, or equal to entry — instead return the fixed minimum size);
the unit count never exceeds the global `MAX_UNITS` cap (the code has no
per-instrument unit cap, so the configured-cap clause is vacuous); and on a
valid stop the size is `floor(balance * appliedRiskPct/100 / |entry-stop|)`
clamped to `[1, MAX_UNITS]`. -/
theorem claim3_amended (cfg : Config) (sym : String) (r entry : ℚ)
    (hM : 1 ≤ cfg.MAX_UNITS) :
    (∀ (b1 b2 : ℚ) (sl : Option ℚ), b1 ≤ b2 →
       (size_for_risk cfg sym b1 r entry sl).1 ≤ (size_for_risk cfg sym b2 r entry sl).1) ∧
    (∀ (bal sl1 sl2 : ℚ), sl1 ≠ 0 → sl1 ≠ entry → sl2 ≠ 0 → sl2 ≠ entry →
       |entry - sl1| ≤ |entry - sl2| →
       (size_for_risk cfg sym bal r entry (some sl2)).1 ≤
         (size_for_risk cfg sym bal r entry (some sl1)).1) ∧
    (∀ (bal : ℚ) (sl : Option ℚ),
       (size_for_risk cfg sym bal r entry sl).1 ≤ cfg.MAX_UNITS) ∧
    (∀ (bal sl : ℚ), sl ≠ 0 → sl ≠ entry →
       size_for_risk cfg sym bal r entry (some sl) =
         (clamp_units cfg ⌊bal * (clamp_risk cfg sym r / 100) / |entry - sl|⌋,
          clamp_risk cfg sym r)) := by
  have hk : 0 ≤ clamp_risk cfg sym r / 100 :=
    div_nonneg (clamp_risk_nonneg cfg sym r) (by norm_num)
  refine ⟨?_, ?_, ?_, fun bal sl h0 he => size_for_risk_valid cfg sym bal r entry sl h0 he⟩
  · intro b1 b2 sl h
    cases sl with
    | none => simp [size_for_risk]
    | some sl =>
      by_cases hdeg : sl = 0 ∨ sl = entry
      · simp only [size_for_risk, if_pos hdeg]
        exact le_rfl
      · push_neg at hdeg
        have hd : 0 < |entry - sl| := abs_pos.mpr (sub_ne_zero.mpr (Ne.symm hdeg.2))
        rw [size_for_risk_valid cfg sym b1 r entry sl hdeg.1 hdeg.2,
            size_for_risk_valid cfg sym b2 r entry sl hdeg.1 hdeg.2]
        exact clamp_units_mono cfg (Int.floor_mono
          ((div_le_div_iff_of_pos_right hd).mpr (mul_le_mul_of_nonneg_right h hk)))
  · intro bal sl1 sl2 h10 h1e h20 h2e hle
    have hd1 : 0 < |entry - sl1| := abs_pos.mpr (sub_ne_zero.mpr (Ne.symm h1e))
    have hd2 : 0 < |entry - sl2| := abs_pos.mpr (sub_ne_zero.mpr (Ne.symm h2e))
    rw [size_for_risk_valid cfg sym bal r entry sl1 h10 h1e,
        size_for_risk_valid cfg sym bal r entry sl2 h20 h2e]
    rcases le_or_lt 0 (bal * (clamp_risk cfg sym r / 100)) with hc | hc
    · exact clamp_units_mono cfg (Int.floor_mono
        ((div_le_div_iff₀ hd2 hd1).mpr (mul_le_mul_of_nonneg_left hle hc)))
    · have f1 : ⌊bal * (clamp_risk cfg sym r / 100) / |entry - sl1|⌋ < 1 :=
        Int.floor_lt.mpr (by push_cast
                             exact lt_trans (div_neg_of_neg_of_pos hc hd1) one_pos)
      have f2 : ⌊bal * (clamp_risk cfg sym r / 100) / |entry - sl2|⌋ < 1 :=
        Int.floor_lt.mpr (by push_cast
                             exact lt_trans (div_neg_of_neg_of_pos hc hd2) one_pos)
      rw [clamp_units_of_lt_one cfg f1, clamp_units_of_lt_one cfg f2]
  · intro bal sl
    cases sl with
    | none => simp only [size_for_risk]; exact clamp_units_le cfg hM 1
    | some sl =>
      simp only [size_for_risk]
      split_ifs <;> exact clamp_units_le cfg hM _

/-- Claim C3 witness: at the default configuration with balance 1,000,000, risk
0.05 and entry 39250, a stop at distance 150 produces no more units than a
stop at distance 100, and both facts used as hypotheses hold. -/
theorem claim3_amended_witness :
    (1 : ℤ) ≤ defaultConfig.MAX_UNITS ∧
    |(39250 : ℚ) - 39150| ≤ |(39250 : ℚ) - 39100| ∧
    (size_for_risk defaultConfig "US30" 1000000 (1/20) 39250 (some 39100)).1 ≤
      (size_for_risk defaultConfig "US30" 1000000 (1/20) 39250 (some 39150)).1 := by
  refine ⟨by norm_num [defaultConfig], by norm_num [abs_of_nonneg], ?_⟩
  exact (claim3_amended defaultConfig "US30" (1/20) 39250
      (by norm_num [defaultConfig])).2.1 1000000 39150 39100
    (by norm_num) (by norm_num) (by norm_num) (by norm_num)
    (by norm_num [abs_of_nonneg])

/-- A daily-loss-stop response can only arise with the threshold enabled and
the drawdown at or beyond it. -/
theorem webhook_dailyLossStop_inv (cfg : Config) (env : Env) (store : Store)
    (data : Option WebhookData)
    (h : (webhook cfg env store data).2.1 = WebhookResult.dailyLossStop) :
    0 < cfg.DAILY_LOSS_STOP_PCT ∧
      cfg.DAILY_LOSS_STOP_PCT ≤ day_loss_pct env.sodEquity env.latestEquity := by
  rcases webhook_cases cfg env store data with
    h1 | h1 | h1 | h1 | ⟨d, hd, h1⟩ | ⟨d, side, price, hd, h1⟩
  · rw [h1] at h; simp at h
  · rw [h1] at h; simp at h
  · rw [h1] at h; simp at h
  · rw [h1] at h; simp at h
  · rw [h1] at h; simp at h
  · rw [h1] at h
    rcases guardStage_cases cfg env (upperStr (d.symbol.getD "")) side price
        (oidOf d env) (seen store (oidOf d env) env.now).2 d with
      ⟨_, hg⟩ | ⟨_, hg⟩ | ⟨ha, hb, hg⟩ | ⟨_, _, hg⟩ | ⟨_, _, hg⟩ | hg
    · rw [hg] at h; simp at h
    · rw [hg] at h; simp at h
    · exact ⟨ha, hb⟩
    · rw [hg] at h; simp at h
    · rw [hg] at h; simp at h
    · rw [hg] at h
      rcases execStage_cases cfg env (upperStr (d.symbol.getD ""))
          (map_symbol (upperStr (d.symbol.getD ""))) side price (oidOf d env)
          (seen store (oidOf d env) env.now).2 d with hm | ⟨u, sp, tp, ra, hm⟩
      · rw [hm] at h; simp at h
      · rw [hm] at h; simp at h

/-- A global-concurrency rejection can only arise with a non-zero cap met by
the open-position count. -/
theorem webhook_maxG_inv (cfg : Config) (env : Env) (store : Store)
    (data : Option WebhookData)
    (h : (webhook cfg env store data).2.1 = WebhookResult.maxConcurrentGlobal) :
    cfg.MAX_CONCURRENT_GLOBAL ≠ 0 ∧ cfg.MAX_CONCURRENT_GLOBAL ≤ env.gCount := by
  rcases webhook_cases cfg env store data with
    h1 | h1 | h1 | h1 | ⟨d, hd, h1⟩ | ⟨d, side, price, hd, h1⟩
  · rw [h1] at h; simp at h
  · rw [h1] at h; simp at h
  · rw [h1] at h; simp at h
  · rw [h1] at h; simp at h
  · rw [h1] at h; simp at h
  · rw [h1] at h
    rcases guardStage_cases cfg env (upperStr (d.symbol.getD "")) side price
        (oidOf d env) (seen store (oidOf d env) env.now).2 d with
      ⟨_, hg⟩ | ⟨_, hg⟩ | ⟨_, _, hg⟩ | ⟨ha, hb, hg⟩ | ⟨_, _, hg⟩ | hg
    · rw [hg] at h; simp at h
    · rw [hg] at h; simp at h
    · rw [hg] at h; simp at h
    · exact ⟨ha, hb⟩
    · rw [hg] at h; simp at h
    · rw [hg] at h
      rcases execStage_cases cfg env (upperStr (d.symbol.getD ""))
          (map_symbol (upperStr (d.symbol.getD ""))) side price (oidOf d env)
          (seen store (oidOf d env) env.now).2 d with hm | ⟨u, sp, tp, ra, hm⟩
      · rw [hm] at h; simp at h
      · rw [hm] at h; simp at h

/-- A per-symbol-concurrency rejection can only arise with a non-zero cap
met by the per-instrument count. -/
theorem webhook_maxS_inv (cfg : Config) (env : Env) (store : Store)
    (data : Option WebhookData)
    (h : (webhook cfg env store data).2.1 = WebhookResult.maxConcurrentPerSymbol) :
    cfg.MAX_CONCURRENT_PER_SYMBOL ≠ 0 ∧
      ∃ inst : String, cfg.MAX_CONCURRENT_PER_SYMBOL ≤ env.perCounts inst := by
  rcases webhook_cases cfg env store data with
    h1 | h1 | h1 | h1 | ⟨d, hd, h1⟩ | ⟨d, side, price, hd, h1⟩
  · rw [h1] at h; simp at h
  · rw [h1] at h; simp at h
  · rw [h1] at h; simp at h
  · rw [h1] at h; simp at h
  · rw [h1] at h; simp at h
  · rw [h1] at h
    rcases guardStage_cases cfg env (upperStr (d.symbol.getD "")) side price
        (oidOf d env) (seen store (oidOf d env) env.now).2 d with
      ⟨_, hg⟩ | ⟨_, hg⟩ | ⟨_, _, hg⟩ | ⟨_, _, hg⟩ | ⟨ha, hb, hg⟩ | hg
    · rw [hg] at h; simp at h
    · rw [hg] at h; simp at h
    · rw [hg] at h; simp at h
    · rw [hg] at h; simp at h
    · exact ⟨ha, ⟨map_symbol (upperStr (d.symbol.getD "")), hb⟩⟩
    · rw [hg] at h
      rcases execStage_cases cfg env (upperStr (d.symbol.getD ""))
          (map_symbol (upperStr (d.symbol.getD ""))) side price (oidOf d env)
          (seen store (oidOf d env) env.now).2 d with hm | ⟨u, sp, tp, ra, hm⟩
      · rw [hm] at h; simp at h
      · rw [hm] at h; simp at h

/-- Claim C9: the daily drawdown percentage is never negative; it is zero whenever
the start-of-day equity is non-positive or the latest equity is at least the
start-of-day equity; and consequently the daily-loss-stop guard only ever
fires on a day that is strictly down (with a positive baseline). -/
theorem claim9_day_loss_nonneg :
    (∀ sod cur : ℚ, 0 ≤ day_loss_pct sod cur) ∧
    (∀ sod cur : ℚ, sod ≤ 0 → day_loss_pct sod cur = 0) ∧
    (∀ sod cur : ℚ, sod ≤ cur → day_loss_pct sod cur = 0) ∧
    (∀ (cfg : Config) (env : Env) (store : Store) (data : Option WebhookData),
       (webhook cfg env store data).2.1 = WebhookResult.dailyLossStop →
       env.latestEquity < env.sodEquity ∧ 0 < env.sodEquity) := by
  have hz : ∀ sod cur : ℚ, sod ≤ cur → day_loss_pct sod cur = 0 := by
    intro sod cur h
    unfold day_loss_pct
    split_ifs with hs
    · rfl
    · push_neg at hs
      refine max_eq_left ?_
      apply mul_nonpos_of_nonpos_of_nonneg ?_ (by norm_num)
      exact div_nonpos_of_nonpos_of_nonneg (by linarith) (le_of_lt hs)
  refine ⟨?_, ?_, hz, ?_⟩
  · intro sod cur
    unfold day_loss_pct
    split_ifs
    · exact le_rfl
    · exact le_max_left _ _
  · intro sod cur h
    unfold day_loss_pct
    rw [if_pos h]
  · intro cfg env store data h
    obtain ⟨hthr, hge⟩ := webhook_dailyLossStop_inv cfg env store data h
    by_contra hcon
    rw [not_and_or] at hcon
    have hzero : day_loss_pct env.sodEquity env.latestEquity = 0 := by
      rcases hcon with hc | hc
      · exact hz _ _ (not_lt.mp hc)
      · unfold day_loss_pct
        rw [if_pos (not_lt.mp hc)]
    rw [hzero] at hge
    exact absurd (lt_of_lt_of_le hthr hge) (lt_irrefl 0)

/-- Claim C9 witness: a flat day (start-of-day 5, latest 7 ≥ 5) yields a zero
drawdown percentage. -/
theorem claim9_day_loss_nonneg_witness :
    (5 : ℚ) ≤ 7 ∧ day_loss_pct 5 7 = 0 :=
  ⟨by norm_num, claim9_day_loss_nonneg.2.2.1 5 7 (by norm_num)⟩

/-- Claim C10: a concurrency cap configured as 0 disables the corresponding guard
entirely (it never produces a rejection), and a concurrency rejection
requires both a non-zero cap and an open-position count at or above it. -/
theorem claim10_concurrency (cfg : Config) (env : Env) (store : Store)
    (data : Option WebhookData) :
    (cfg.MAX_CONCURRENT_GLOBAL = 0 →
       (webhook cfg env store data).2.1 ≠ WebhookResult.maxConcurrentGlobal) ∧
    (cfg.MAX_CONCURRENT_PER_SYMBOL = 0 →
       (webhook cfg env store data).2.1 ≠ WebhookResult.maxConcurrentPerSymbol) ∧
    ((webhook cfg env store data).2.1 = WebhookResult.maxConcurrentGlobal →
       cfg.MAX_CONCURRENT_GLOBAL ≠ 0 ∧ cfg.MAX_CONCURRENT_GLOBAL ≤ env.gCount) ∧
    ((webhook cfg env store data).2.1 = WebhookResult.maxConcurrentPerSymbol →
       cfg.MAX_CONCURRENT_PER_SYMBOL ≠ 0 ∧
       ∃ inst : String, cfg.MAX_CONCURRENT_PER_SYMBOL ≤ env.perCounts inst) := by
  refine ⟨?_, ?_, webhook_maxG_inv cfg env store data, webhook_maxS_inv cfg env store data⟩
  · intro h0 h
    exact absurd h0 (webhook_maxG_inv cfg env store data h).1
  · intro h0 h
    exact absurd h0 (webhook_maxS_inv cfg env store data h).1

/-- Claim C10 witness: with both concurrency caps configured as 0, the scenario-A
signal is not rejected by either concurrency guard. -/
theorem claim10_concurrency_witness :
    zeroCapsConfig.MAX_CONCURRENT_GLOBAL = 0 ∧
    zeroCapsConfig.MAX_CONCURRENT_PER_SYMBOL = 0 ∧
    (webhook zeroCapsConfig scenarioAEnv [] (some scenarioAData)).2.1 ≠
      WebhookResult.maxConcurrentGlobal ∧
    (webhook zeroCapsConfig scenarioAEnv [] (some scenarioAData)).2.1 ≠
      WebhookResult.maxConcurrentPerSymbol :=
  ⟨rfl, rfl,
   (claim10_concurrency zeroCapsConfig scenarioAEnv [] (some scenarioAData)).1 rfl,
   (claim10_concurrency zeroCapsConfig scenarioAEnv [] (some scenarioAData)).2.1 rfl⟩

/-- Whether a response is an admission-guard veto (kill switch, trading
window, daily loss stop, concurrency caps, minimum stop distance). -/
def isGuardVeto : WebhookResult → Bool
  | .skippedTradingDisabled => true
  | .outsideWindow => true
  | .dailyLossStop => true
  | .maxConcurrentGlobal => true
  | .maxConcurrentPerSymbol => true
  | .minSLTooSmall => true
  | _ => false

/-- The scenario-A environment with the trading-window test failing. -/
def outsideWindowEnv : Env :=
  { now := 1000, genId := "tv-00000000", inWindow := false,
    sodEquity := 10000, latestEquity := 10000, gCount := 0,
    perCounts := fun _ => 0, balance := 1000000,
    oandaOk := true, dupOk := true, dupStatus := 200, dupMsg := "" }

/-- Claim C2 counterexample: a signal vetoed by the trading-window guard is not
appended to the trade log — the webhook returns the rejection with an empty
trade-log effect, contradicting the claim that every guard veto still logs
the signal. -/
theorem claim2_counterexample :
    (webhook defaultConfig outsideWindowEnv [] (some scenarioAData)).2.1 =
      WebhookResult.outsideWindow ∧
    (webhook defaultConfig outsideWindowEnv [] (some scenarioAData)).2.2.tradeLog = [] := by
  norm_num +decide [webhook, guardStage, execStage, aggStatus, pyFirstStr, oidOf, seen,
    purgeStore, lookupKV, pyStrDefault,
    minSLViolated, day_loss_pct, map_symbol_US30, tpd_US30_points,
    size_for_risk, clamp_risk, clamp_units,
    place_oanda_order, forward_to_duplikium, noEffects, side_str,
    sideOf_upper_BUY, upperStr_US30, outsideWindowEnv, scenarioAData, defaultConfig]

/-- Claim C2 (amended): no guard veto invokes either downstream execution target;
but only the kill-switch veto appends the signal to the trade log — the
trading-window, daily-loss, concurrency and minimum-stop vetoes reject
without a trade-log append. -/
theorem claim2_amended (cfg : Config) (env : Env) (store : Store)
    (data : Option WebhookData) :
    (isGuardVeto (webhook cfg env store data).2.1 = true →
       (webhook cfg env store data).2.2.oandaCalled = false ∧
       (webhook cfg env store data).2.2.dupCalled = false) ∧
    ((webhook cfg env store data).2.1 = WebhookResult.skippedTradingDisabled →
       (webhook cfg env store data).2.2.tradeLog ≠ []) ∧
    (isGuardVeto (webhook cfg env store data).2.1 = true →
       (webhook cfg env store data).2.1 ≠ WebhookResult.skippedTradingDisabled →
       (webhook cfg env store data).2.2.tradeLog = []) := by
  rcases webhook_cases cfg env store data with
    h1 | h1 | h1 | h1 | ⟨d, hd, h1⟩ | ⟨d, side, price, hd, h1⟩
  · rw [h1]; simp [isGuardVeto, noEffects]
  · rw [h1]; simp [isGuardVeto, noEffects]
  · rw [h1]; simp [isGuardVeto, noEffects]
  · rw [h1]; simp [isGuardVeto, noEffects]
  · rw [h1]; simp [isGuardVeto, noEffects]
  · rw [h1]
    rcases guardStage_cases cfg env (upperStr (d.symbol.getD "")) side price
        (oidOf d env) (seen store (oidOf d env) env.now).2 d with
      ⟨_, hg⟩ | ⟨_, hg⟩ | ⟨_, _, hg⟩ | ⟨_, _, hg⟩ | ⟨_, _, hg⟩ | hg
    · rw [hg]; simp [isGuardVeto, noEffects]
    · rw [hg]; simp [isGuardVeto, noEffects]
    · rw [hg]; simp [isGuardVeto, noEffects]
    · rw [hg]; simp [isGuardVeto, noEffects]
    · rw [hg]; simp [isGuardVeto, noEffects]
    · rw [hg]
      rcases execStage_cases cfg env (upperStr (d.symbol.getD ""))
          (map_symbol (upperStr (d.symbol.getD ""))) side price (oidOf d env)
          (seen store (oidOf d env) env.now).2 d with hm | ⟨u, sp, tp, ra, hm⟩
      · rw [hm]; simp [isGuardVeto, noEffects]
      · rw [hm]; simp [isGuardVeto, noEffects]

/-- Claim C2 witness: at the concrete trading-window veto, neither downstream call
is invoked and the trade log stays empty. -/
theorem claim2_amended_witness :
    (webhook defaultConfig outsideWindowEnv [] (some scenarioAData)).2.2.oandaCalled = false ∧
    (webhook defaultConfig outsideWindowEnv [] (some scenarioAData)).2.2.dupCalled = false ∧
    (webhook defaultConfig outsideWindowEnv [] (some scenarioAData)).2.2.tradeLog = [] := by
  have hv : isGuardVeto
      (webhook defaultConfig outsideWindowEnv [] (some scenarioAData)).2.1 = true := by
    norm_num +decide [webhook, guardStage, pyFirstStr, oidOf, seen,
      purgeStore, lookupKV, day_loss_pct, noEffects,
      sideOf_upper_BUY, upperStr_US30, outsideWindowEnv, scenarioAData, defaultConfig,
      isGuardVeto]
  have hns : (webhook defaultConfig outsideWindowEnv [] (some scenarioAData)).2.1 ≠
      WebhookResult.skippedTradingDisabled := by
    norm_num +decide [webhook, guardStage, pyFirstStr, oidOf, seen,
      purgeStore, lookupKV, day_loss_pct, noEffects,
      sideOf_upper_BUY, upperStr_US30, outsideWindowEnv, scenarioAData, defaultConfig]
  have h := claim2_amended defaultConfig outsideWindowEnv [] (some scenarioAData)
  exact ⟨(h.1 hv).1, (h.1 hv).2, h.2.2 hv hns⟩

/-- A store holding `"dup-1"` seen 50 seconds ago (within the 90s TTL). -/
def dupStore : Store := [("dup-1", 1000)]

/-- A non-allow-listed signal re-using the already-seen order id. -/
def notAllowedDupData : WebhookData :=
  { action := some "BUY", symbol := some "FOO", price := some 100,
    order_id := some "dup-1" }

/-- The ambient state 50 seconds after `"dup-1"` was first seen. -/
def dupEnv : Env :=
  { now := 1050, genId := "tv-00000000", inWindow := true,
    sodEquity := 10000, latestEquity := 10000, gCount := 0,
    perCounts := fun _ => 0, balance := 1000000,
    oandaOk := true, dupOk := true, dupStatus := 200, dupMsg := "" }

/-- Claim C5 counterexample: a signal whose order id is already recorded within
the TTL but whose symbol is not allow-listed is answered with the allow-list
rejection, not as a duplicate — the allow-list check runs before the
idempotency filter. -/
theorem claim5_counterexample :
    (seen dupStore (oidOf notAllowedDupData dupEnv) dupEnv.now).1 = true ∧
    (webhook defaultConfig dupEnv dupStore (some notAllowedDupData)).2.1 =
      WebhookResult.symbolNotAllowed ∧
    (webhook defaultConfig dupEnv dupStore (some notAllowedDupData)).2.1 ≠
      WebhookResult.duplicate := by
  refine ⟨?_, ?_, ?_⟩
  · norm_num +decide [seen, purgeStore, lookupKV, oidOf, ID_TTL,
      dupStore, dupEnv, notAllowedDupData, List.filter_cons]
  · norm_num +decide [webhook, pyFirstStr, sideOf_upper_BUY, noEffects,
      dupStore, dupEnv, notAllowedDupData, defaultConfig]
  · norm_num +decide [webhook, pyFirstStr, sideOf_upper_BUY, noEffects,
      dupStore, dupEnv, notAllowedDupData, defaultConfig]

/-- Claim C5 (amended): the idempotency filter runs after the malformed-signal and
allow-list checks but before every dynamic guard: any signal with a
resolvable side, an allow-listed symbol, a present price and an already-seen
order id is answered as a duplicate, whatever the guard context. -/
theorem claim5_amended (cfg : Config) (env : Env) (store : Store) (d : WebhookData)
    (side : Side) (price : ℚ)
    (hside : sideOf (upperStr (pyFirstStr d.action d.signal)) = some side)
    (hsym : upperStr (d.symbol.getD "") ∈ cfg.SYMBOL_ALLOW)
    (hne : upperStr (d.symbol.getD "") ≠ "")
    (hprice : d.price = some price)
    (hdup : (seen store (oidOf d env) env.now).1 = true) :
    webhook cfg env store (some d) =
      (200, WebhookResult.duplicate, noEffects (seen store (oidOf d env) env.now).2) := by
  simp only [webhook, hside]
  rw [if_neg hne, if_neg (not_not_intro hsym)]
  simp only [hprice]
  rw [if_pos hdup]

/-- An allow-listed signal re-using the already-seen order id. -/
def allowedDupData : WebhookData :=
  { action := some "BUY", symbol := some "US30", price := some 39250,
    order_id := some "dup-1" }

/-- Claim C5 witness: the allow-listed US30 signal with the already-seen id is
answered as a duplicate. -/
theorem claim5_amended_witness :
    webhook defaultConfig dupEnv dupStore (some allowedDupData) =
      (200, WebhookResult.duplicate,
       noEffects (seen dupStore (oidOf allowedDupData dupEnv) dupEnv.now).2) :=
  claim5_amended defaultConfig dupEnv dupStore allowedDupData Side.buy 39250
    (by decide) (by decide) (by decide) rfl
    (by norm_num +decide [seen, purgeStore, lookupKV, oidOf, ID_TTL,
      dupStore, dupEnv, allowedDupData, List.filter_cons])

/-- Characterisation of the aggregate status over the two downstream
outcomes: ok iff both succeed, error iff both fail, mixed (the source's
`'partial'`) iff exactly one succeeds. -/
theorem aggStatus_char : ∀ o du : Bool,
    (aggStatus o du = ExecStatus.ok ↔ o = true ∧ du = true) ∧
    (aggStatus o du = ExecStatus.error ↔ o = false ∧ du = false) ∧
    (aggStatus o du = ExecStatus.mixed ↔
      (o = true ∧ du = false) ∨ (o = false ∧ du = true)) := by
  decide

/-- Claim C6: every signal that reaches execution invokes both downstream calls
(independently — the second is invoked whatever the first returned), its
reported messages are those of the two calls, and the aggregate status is ok
iff both succeed, error iff both fail, and partial (`mixed`) otherwise. -/
theorem claim6_dual_execution (cfg : Config) (env : Env) (store : Store)
    (data : Option WebhookData) (st : ExecStatus) (u : ℤ) (sp tp : Option ℚ) (ra : ℚ)
    (om : String) (ds : ℤ) (dm : String)
    (h : (webhook cfg env store data).2.1 = WebhookResult.executed st u sp tp ra om ds dm) :
    (webhook cfg env store data).2.2.oandaCalled = true ∧
    (webhook cfg env store data).2.2.dupCalled = true ∧
    om = (place_oanda_order cfg env).2 ∧
    dm = (forward_to_duplikium cfg env).2.2 ∧
    (st = ExecStatus.ok ↔
      (place_oanda_order cfg env).1 = true ∧ (forward_to_duplikium cfg env).1 = true) ∧
    (st = ExecStatus.error ↔
      (place_oanda_order cfg env).1 = false ∧ (forward_to_duplikium cfg env).1 = false) ∧
    (st = ExecStatus.mixed ↔
      ((place_oanda_order cfg env).1 = true ∧ (forward_to_duplikium cfg env).1 = false) ∨
      ((place_oanda_order cfg env).1 = false ∧ (forward_to_duplikium cfg env).1 = true)) := by
  rcases webhook_cases cfg env store data with
    h1 | h1 | h1 | h1 | ⟨d, hd, h1⟩ | ⟨d, side, price, hd, h1⟩
  · rw [h1] at h; simp at h
  · rw [h1] at h; simp at h
  · rw [h1] at h; simp at h
  · rw [h1] at h; simp at h
  · rw [h1] at h; simp at h
  · rw [h1] at h ⊢
    rcases guardStage_cases cfg env (upperStr (d.symbol.getD "")) side price
        (oidOf d env) (seen store (oidOf d env) env.now).2 d with
      ⟨_, hg⟩ | ⟨_, hg⟩ | ⟨_, _, hg⟩ | ⟨_, _, hg⟩ | ⟨_, _, hg⟩ | hg
    · rw [hg] at h; simp at h
    · rw [hg] at h; simp at h
    · rw [hg] at h; simp at h
    · rw [hg] at h; simp at h
    · rw [hg] at h; simp at h
    · rw [hg] at h ⊢
      rcases execStage_cases cfg env (upperStr (d.symbol.getD ""))
          (map_symbol (upperStr (d.symbol.getD ""))) side price (oidOf d env)
          (seen store (oidOf d env) env.now).2 d with hm | ⟨u2, sp2, tp2, ra2, hm⟩
      · rw [hm] at h; simp at h
      · rw [hm] at h ⊢
        dsimp only at h ⊢
        injection h with hst hu hsp htp hra hom hds hdm
        subst hst
        subst hom
        subst hdm
        refine ⟨rfl, rfl, rfl, rfl, ?_, ?_, ?_⟩
        · exact (aggStatus_char _ _).1
        · exact (aggStatus_char _ _).2.1
        · exact (aggStatus_char _ _).2.2

/-- Claim C6 witness: the dry-run scenario-A execution invoked both downstream
calls and aggregated two no-op successes to ok. -/
theorem claim6_dual_execution_witness :
    (webhook defaultConfig scenarioAEnv [] (some scenarioAData)).2.2.oandaCalled = true ∧
    (webhook defaultConfig scenarioAEnv [] (some scenarioAData)).2.2.dupCalled = true ∧
    "OANDA not called (LOCAL_TEST / forwarding disabled / trading disabled)" =
      (place_oanda_order defaultConfig scenarioAEnv).2 ∧
    "Duplikium not called (LOCAL_TEST / forwarding disabled / trading disabled)" =
      (forward_to_duplikium defaultConfig scenarioAEnv).2.2 ∧
    (ExecStatus.ok = ExecStatus.ok ↔
      (place_oanda_order defaultConfig scenarioAEnv).1 = true ∧
      (forward_to_duplikium defaultConfig scenarioAEnv).1 = true) ∧
    (ExecStatus.ok = ExecStatus.error ↔
      (place_oanda_order defaultConfig scenarioAEnv).1 = false ∧
      (forward_to_duplikium defaultConfig scenarioAEnv).1 = false) ∧
    (ExecStatus.ok = ExecStatus.mixed ↔
      ((place_oanda_order defaultConfig scenarioAEnv).1 = true ∧
        (forward_to_duplikium defaultConfig scenarioAEnv).1 = false) ∨
      ((place_oanda_order defaultConfig scenarioAEnv).1 = false ∧
        (forward_to_duplikium defaultConfig scenarioAEnv).1 = true)) :=
  claim6_dual_execution defaultConfig scenarioAEnv [] (some scenarioAData)
    ExecStatus.ok 3 (some 39100) (some 39550) (1/20)
    "OANDA not called (LOCAL_TEST / forwarding disabled / trading disabled)" 200
    "Duplikium not called (LOCAL_TEST / forwarding disabled / trading disabled)"
    (by norm_num +decide [webhook, guardStage, execStage, aggStatus, pyFirstStr, oidOf,
      seen, purgeStore, lookupKV, pyStrDefault,
      minSLViolated, day_loss_pct, map_symbol_US30, tpd_US30_points,
      size_for_risk, clamp_risk, clamp_units,
      place_oanda_order, forward_to_duplikium, noEffects, side_str,
      sideOf_upper_BUY, upperStr_US30, scenarioAEnv, scenarioAData, defaultConfig])

/-- A request missing the price field (side and allow-listed symbol present). -/
def missingPriceData : WebhookData := { action := some "BUY", symbol := some "US30" }

/-- Claim C7 counterexample: a request missing the price is answered with HTTP
500 (the generic exception path), not a 4xx status, contradicting the claim
that a missing price yields a 4xx rejection; it does keep all logging side
effects absent. -/
theorem claim7_counterexample :
    (webhook defaultConfig scenarioAEnv [] (some missingPriceData)).1 = 500 ∧
    ¬((webhook defaultConfig scenarioAEnv [] (some missingPriceData)).1 ≤ 499) ∧
    (webhook defaultConfig scenarioAEnv [] (some missingPriceData)).2.2.tradeLog = [] ∧
    (webhook defaultConfig scenarioAEnv [] (some missingPriceData)).2.2.equitySim = false ∧
    (webhook defaultConfig scenarioAEnv [] (some missingPriceData)).2.2.oandaCalled = false ∧
    (webhook defaultConfig scenarioAEnv [] (some missingPriceData)).2.2.dupCalled = false := by
  norm_num +decide [webhook, pyFirstStr, sideOf_upper_BUY, upperStr_US30, noEffects,
    missingPriceData, scenarioAEnv, defaultConfig]

/-- Claim C7 (amended): a missing body or missing side/symbol is rejected with
HTTP 400 and no side effects; a missing price (with valid side and
allow-listed symbol) is rejected through the generic error path with HTTP
500 — not a 4xx — likewise with no trade-log, equity or downstream side
effects. -/
theorem claim7_amended :
    (∀ (cfg : Config) (env : Env) (store : Store),
       webhook cfg env store none = (400, WebhookResult.noData, noEffects store)) ∧
    (∀ (cfg : Config) (env : Env) (store : Store) (d : WebhookData),
       sideOf (upperStr (pyFirstStr d.action d.signal)) = none →
       webhook cfg env store (some d) =
         (400, WebhookResult.missingSideSymbol, noEffects store)) ∧
    (∀ (cfg : Config) (env : Env) (store : Store) (d : WebhookData) (side : Side),
       sideOf (upperStr (pyFirstStr d.action d.signal)) = some side →
       upperStr (d.symbol.getD "") = "" →
       webhook cfg env store (some d) =
         (400, WebhookResult.missingSideSymbol, noEffects store)) ∧
    (∀ (cfg : Config) (env : Env) (store : Store) (d : WebhookData) (side : Side),
       sideOf (upperStr (pyFirstStr d.action d.signal)) = some side →
       upperStr (d.symbol.getD "") ≠ "" →
       upperStr (d.symbol.getD "") ∈ cfg.SYMBOL_ALLOW →
       d.price = none →
       webhook cfg env store (some d) =
         (500, WebhookResult.internalError, noEffects store)) := by
  refine ⟨fun cfg env store => rfl, ?_, ?_, ?_⟩
  · intro cfg env store d hside
    simp only [webhook, hside]
  · intro cfg env store d side hside hempty
    simp only [webhook, hside]
    rw [if_pos hempty]
  · intro cfg env store d side hside hne hmem hprice
    simp only [webhook, hside]
    rw [if_neg hne, if_neg (not_not_intro hmem)]
    simp only [hprice]

/-- Claim C7 witness: the concrete missing-price request is answered with 500 and
no side effects. -/
theorem claim7_amended_witness :
    webhook defaultConfig scenarioAEnv [] (some missingPriceData) =
      (500, WebhookResult.internalError, noEffects []) :=
  claim7_amended.2.2.2 defaultConfig scenarioAEnv [] missingPriceData Side.buy
    (by decide) (by decide) (by decide) rfl

end TradingBot
